import Mathlib

/-!
Shallow embedding of the ASOSTORE prepaid-wallet application.

The repository is a browser UI over a hosted relational database; all
business logic is a handful of form handlers that validate client-side
state and then issue 2-4 sequential table writes.  We embed:

* the rows of the six tables (timestamps and display-only fields omitted,
  since no claim mentions them);
* monetary amounts as `Rat` (the source computes with JS numbers; the
  claims are about the exact arithmetic the expressions denote);
* quantities as `Int` (the source obtains them with `parseInt`);
* each handler as a pure function from the fetched database state and the
  submitted form to `Except String (List Write)`: `.error` is the
  handler returning early with a toast (no write issued), `.ok ws` is the
  success path issuing the writes `ws` in order;
* `applyWrites` replays a list of writes against the database; replaying
  only a prefix models a network failure part-way through a handler.

Form fields that the source keeps as strings and parses (`parseInt`,
`parseFloat`) are embedded post-parse as integers/rationals; the source's
empty-string and NaN rejections collapse into the `≤ 0` rejections, which
is behaviourally identical for every claim below (all reject with no
write).
-/

namespace Asostore

/-- A row of the `students` table (part_002 migration; `last_payment`,
`created_at` omitted). -/
structure Student where
  id : String
  name : String
  admission_no : String
  class_code : String
  balance : Rat
  total_paid : Rat
  total_spent : Rat
  deriving Repr, DecidableEq

/-- A row of the `stock_items` table (`last_updated` omitted). -/
structure StockItem where
  id : String
  item_name : String
  quantity : Int
  cost_price : Rat
  selling_price : Rat
  deriving Repr, DecidableEq

/-- A row of the `purchases` table (`id`, `timestamp` omitted). -/
structure PurchaseRow where
  student_id : String
  item_id : String
  quantity : Int
  total_price : Rat
  deriving Repr, DecidableEq

/-- Transaction type enum (`deposit` / `spend`). -/
inductive TxnType where
  | deposit
  | spend
  deriving Repr, DecidableEq

/-- Payment method enum. -/
inductive PayMethod where
  | online
  | bycash
  | credit
  deriving Repr, DecidableEq

/-- A row of the `transactions` table (`id`, `timestamp` omitted). -/
structure TransactionRow where
  student_id : String
  amount : Rat
  type : TxnType
  method : PayMethod
  note : Option String
  deriving Repr, DecidableEq

/-- A row of the `daily_sales` table (`id`, `created_at` omitted). -/
structure DailySaleRow where
  item_id : String
  quantity_sold : Int
  selling_price_per_unit : Rat
  total_revenue : Rat
  cost_price_per_unit : Rat
  total_cost : Rat
  profit : Rat
  sale_date : String
  notes : Option String
  deriving Repr, DecidableEq

/-- A row of the `stock_purchases` table (`id`, `created_at` omitted). -/
structure StockPurchaseRow where
  item_id : String
  quantity : Int
  cost_per_unit : Rat
  total_cost : Rat
  supplier_name : String
  purchase_date : String
  notes : Option String
  deriving Repr, DecidableEq

/-- The database state: one list of rows per table. -/
structure DB where
  students : List Student
  stock_items : List StockItem
  purchases : List PurchaseRow
  transactions : List TransactionRow
  daily_sales : List DailySaleRow
  stock_purchases : List StockPurchaseRow
  deriving Repr, DecidableEq

/-- One table write issued by a handler, in source order.  The handlers
issue only inserts and `update ... eq('id', x)` calls; there is no write
that deletes or restores a previously inserted row. -/
inductive Write where
  | insertPurchase (p : PurchaseRow)
  | updateStockQty (item_id : String) (newQty : Int)
  | updateStudentMoney (student_id : String) (newBalance newSpent : Rat)
  | insertTransaction (t : TransactionRow)
  | insertDailySale (s : DailySaleRow)
  | updateStockQtyCost (item_id : String) (newQty : Int) (newCost : Rat)
  | insertStockPurchase (sp : StockPurchaseRow)
  | insertStudents (ss : List Student)
  deriving Repr, DecidableEq

/-- Apply one write to the database.  Updates patch every row whose `id`
matches, exactly as `update(...).eq('id', x)` does. -/
def applyWrite (db : DB) : Write → DB
  | .insertPurchase p => { db with purchases := db.purchases ++ [p] }
  | .updateStockQty item_id newQty =>
      { db with stock_items := db.stock_items.map fun it =>
          if it.id = item_id then { it with quantity := newQty } else it }
  | .updateStudentMoney student_id newBalance newSpent =>
      { db with students := db.students.map fun st =>
          if st.id = student_id then
            { st with balance := newBalance, total_spent := newSpent }
          else st }
  | .insertTransaction t => { db with transactions := db.transactions ++ [t] }
  | .insertDailySale s => { db with daily_sales := db.daily_sales ++ [s] }
  | .updateStockQtyCost item_id newQty newCost =>
      { db with stock_items := db.stock_items.map fun it =>
          if it.id = item_id then
            { it with quantity := newQty, cost_price := newCost }
          else it }
  | .insertStockPurchase sp =>
      { db with stock_purchases := db.stock_purchases ++ [sp] }
  | .insertStudents ss => { db with students := db.students ++ ss }

/-- Apply a list of writes in order. -/
def applyWrites (db : DB) (ws : List Write) : DB :=
  ws.foldl applyWrite db

/-- Embeds `stockItems.find(item => item.id === id)`. -/
def findItem (items : List StockItem) (id : String) : Option StockItem :=
  items.find? fun it => it.id = id

/-- Embeds `students.find(s => s.id === id)`. -/
def findStudent (students : List Student) (id : String) : Option Student :=
  students.find? fun st => st.id = id

/-! ## Purchases view (student purchase): `Purchases.handleSubmit` -/

/-- The student-purchase form, post-parse (`student_id`, `item_id`,
`quantity`). -/
structure PurchaseForm where
  student_id : String
  item_id : String
  quantity : Int
  deriving Repr, DecidableEq

namespace Purchases

/-- The student update issued by the purchase handler: debit the balance
by the total price and credit `total_spent` by it (`balance:
student.balance - totalPrice, total_spent: student.total_spent +
totalPrice`). -/
def studentPurchaseUpdate (st : Student) (totalPrice : Rat) : Student :=
  { st with balance := st.balance - totalPrice
          , total_spent := st.total_spent + totalPrice }

/-- Embeds `Purchases.handleSubmit`: validate the form, the stock quantity and
the student balance, then issue the four writes (insert purchase row,
decrement stock, debit student, insert `spend` transaction). -/
def handleSubmit (db : DB) (fd : PurchaseForm) : Except String (List Write) :=
  if fd.student_id = "" ∨ fd.item_id = "" then
    .error "Please fill in all fields"
  else if fd.quantity ≤ 0 then
    .error "Please enter a valid quantity"
  else
    match findItem db.stock_items fd.item_id, findStudent db.students fd.student_id with
    | some stockItem, some student =>
        if stockItem.quantity < fd.quantity then
          .error "Insufficient stock quantity"
        else
          let totalPrice := stockItem.selling_price * (fd.quantity : Rat)
          if student.balance < totalPrice then
            .error "Insufficient student balance"
          else
            .ok [ .insertPurchase
                    { student_id := fd.student_id
                    , item_id := fd.item_id
                    , quantity := fd.quantity
                    , total_price := totalPrice }
                , .updateStockQty fd.item_id (stockItem.quantity - fd.quantity)
                , .updateStudentMoney fd.student_id
                    (student.balance - totalPrice)
                    (student.total_spent + totalPrice)
                , .insertTransaction
                    { student_id := fd.student_id
                    , amount := totalPrice
                    , type := .spend
                    , method := .credit
                    , note := some ("Purchase: " ++ stockItem.item_name ++
                        " (" ++ toString fd.quantity ++ " items)") } ]
    | _, _ => .error "Invalid item or student selected"

/-- The database after the handler ran to completion: on a validation
error nothing was written, on success every write was applied. -/
def run (db : DB) (fd : PurchaseForm) : DB :=
  match handleSubmit db fd with
  | .error _ => db
  | .ok ws => applyWrites db ws

end Purchases

/-! ## Stock purchases view (supplier side): the second `handleSubmit`
in part_004 -/

/-- The stock-purchase form, post-parse. -/
structure StockPurchaseForm where
  item_id : String
  quantity : Int
  cost_per_unit : Rat
  supplier_name : String
  purchase_date : String
  notes : Option String
  deriving Repr, DecidableEq

namespace StockPurchases

/-- The stock-purchase handler: validate the form, insert the
`stock_purchases` row, and when (and only when) the item id is found in
the fetched stock list, update its quantity and weighted-average cost
price (`newCostPrice = (quantity*cost_price + totalCost) /
newQuantity`). -/
def handleSubmit (db : DB) (fd : StockPurchaseForm) :
    Except String (List Write) :=
  if fd.item_id = "" ∨ fd.supplier_name = "" then
    .error "Please fill in all required fields"
  else if fd.quantity ≤ 0 then
    .error "Please enter a valid quantity"
  else if fd.cost_per_unit ≤ 0 then
    .error "Please enter a valid cost per unit"
  else
    let totalCost := (fd.quantity : Rat) * fd.cost_per_unit
    let purchaseRow : StockPurchaseRow :=
      { item_id := fd.item_id
      , quantity := fd.quantity
      , cost_per_unit := fd.cost_per_unit
      , total_cost := totalCost
      , supplier_name := fd.supplier_name
      , purchase_date := fd.purchase_date
      , notes := fd.notes }
    match findItem db.stock_items fd.item_id with
    | some stockItem =>
        let newQuantity := stockItem.quantity + fd.quantity
        let currentTotalValue := (stockItem.quantity : Rat) * stockItem.cost_price
        let newTotalValue := currentTotalValue + totalCost
        let newCostPrice := newTotalValue / (newQuantity : Rat)
        .ok [ .insertStockPurchase purchaseRow
            , .updateStockQtyCost fd.item_id newQuantity newCostPrice ]
    | none =>
        .ok [ .insertStockPurchase purchaseRow ]

/-- The database after the stock-purchase handler ran to completion. -/
def run (db : DB) (fd : StockPurchaseForm) : DB :=
  match handleSubmit db fd with
  | .error _ => db
  | .ok ws => applyWrites db ws

end StockPurchases

/-! ## Daily sales view: `DailySales.handleSubmit` (part_004; the copy in
src/components/Purchases.tsx issues the same checks and writes) -/

/-- The daily-sale form, post-parse. -/
structure DailySaleForm where
  item_id : String
  quantity_sold : Int
  sale_date : String
  notes : Option String
  deriving Repr, DecidableEq

namespace DailySales

/-- The `daily_sales` row the handler inserts for a given item: snapshots
of the item's prices, `totalRevenue = quantitySold * sellingPricePerUnit`,
`totalCost = quantitySold * costPricePerUnit`, `profit = totalRevenue -
totalCost`. -/
def mkSale (fd : DailySaleForm) (item : StockItem) : DailySaleRow :=
  let sellingPricePerUnit := item.selling_price
  let costPricePerUnit := item.cost_price
  let totalRevenue := (fd.quantity_sold : Rat) * sellingPricePerUnit
  let totalCost := (fd.quantity_sold : Rat) * costPricePerUnit
  { item_id := fd.item_id
  , quantity_sold := fd.quantity_sold
  , selling_price_per_unit := sellingPricePerUnit
  , total_revenue := totalRevenue
  , cost_price_per_unit := costPricePerUnit
  , total_cost := totalCost
  , profit := totalRevenue - totalCost
  , sale_date := fd.sale_date
  , notes := fd.notes }

/-- Embeds `DailySales.handleSubmit`: validate the form, reject when the
requested quantity exceeds the item's stock, then insert the sale row and
decrement the stock quantity. -/
def handleSubmit (db : DB) (fd : DailySaleForm) : Except String (List Write) :=
  if fd.item_id = "" then
    .error "Please fill in all required fields"
  else if fd.quantity_sold ≤ 0 then
    .error "Please enter a valid quantity"
  else
    match findItem db.stock_items fd.item_id with
    | none => .error "Selected item not found"
    | some selectedItem =>
        if selectedItem.quantity < fd.quantity_sold then
          .error "Insufficient stock"
        else
          .ok [ .insertDailySale (mkSale fd selectedItem)
              , .updateStockQty fd.item_id
                  (selectedItem.quantity - fd.quantity_sold) ]

/-- The database after the daily-sale handler ran to completion. -/
def run (db : DB) (fd : DailySaleForm) : DB :=
  match handleSubmit db fd with
  | .error _ => db
  | .ok ws => applyWrites db ws

end DailySales

/-! ## String primitives

JS `String.prototype.split`, `trim` and `toLowerCase`, embedded as
structural recursion over the character list of the string (the library
versions are defined by well-founded recursion and cannot be evaluated
inside proofs). -/

/-- Embeds `s.split(sep)` for a one-character separator: `""` splits to `[""]`,
and adjacent separators produce empty fields, exactly as in JS. -/
def jsSplitChars (sep : Char) : List Char → List (List Char)
  | [] => [[]]
  | c :: rest =>
      match jsSplitChars sep rest with
      | [] => if c = sep then [[], []] else [[c]]
      | w :: ws =>
          if c = sep then [] :: w :: ws
          else (c :: w) :: ws

/-- Embeds `s.split(sep)` on strings. -/
def jsSplit (sep : Char) (s : String) : List String :=
  (jsSplitChars sep s.toList).map fun cs => ⟨cs⟩

/-- The whitespace characters `trim` strips. -/
def isJsSpace (c : Char) : Bool :=
  c = ' ' ∨ c = '\t' ∨ c = '\n' ∨ c = '\r'

/-- Embeds `s.trim()`: strip leading and trailing whitespace. -/
def jsTrim (s : String) : String :=
  ⟨(((s.toList.dropWhile isJsSpace).reverse.dropWhile isJsSpace).reverse)⟩

/-- Embeds `s.toLowerCase()` (ASCII). -/
def jsToLower (s : String) : String :=
  ⟨s.toList.map Char.toLower⟩

/-! ## Students view: `Students.handleCsvImport` (part_006) -/

namespace Students

/-- Embeds `text.split('\n').filter(line => line.trim())`: the file's lines,
blank lines dropped. -/
def csvLines (text : String) : List String :=
  (jsSplit '\n' text).filter fun l => jsTrim l ≠ ""

/-- Embeds `lines[0].split(',').map(h => h.trim().toLowerCase())`. -/
def parseHeaders (line : String) : List String :=
  (jsSplit ',' line).map fun h => jsToLower (jsTrim h)

/-- The header columns of the file (of its first non-blank line; `[]`
when the file has none). -/
def csvHeaders (text : String) : List String :=
  match csvLines text with
  | [] => []
  | l :: _ => parseHeaders l

/-- Embeds `const requiredHeaders = ['name', 'admission_no', 'class_code']`. -/
def requiredHeaders : List String := ["name", "admission_no", "class_code"]

/-- Embeds `requiredHeaders.filter(h => !headers.includes(h))`. -/
def missingHeaders (headers : List String) : List String :=
  requiredHeaders.filter fun h => h ∉ headers

/-- Embeds `lines[i].split(',').map(v => v.trim())`. -/
def parseValues (line : String) : List String :=
  (jsSplit ',' line).map fun v => jsTrim v

/-- The value a data row assigns to column `f`: the `headers.forEach`
loop writes `student[header] = values[index]` in order, so the last
occurrence of a repeated header wins; a column absent from the header is
the empty (falsy) value. -/
def fieldOf (headers values : List String) (f : String) : String :=
  match ((headers.zip values).filter fun p => p.1 = f).getLast? with
  | some p => p.2
  | none => ""

/-- The student record built from one data row (monetary fields take the
database defaults of 0; the backend generates the id; extra CSV columns
beyond the Student fields are not representable in the row type and are
dropped). -/
def rowStudent (headers values : List String) : Student :=
  { id := ""
  , name := fieldOf headers values "name"
  , admission_no := fieldOf headers values "admission_no"
  , class_code := fieldOf headers values "class_code"
  , balance := 0
  , total_paid := 0
  , total_spent := 0 }

/-- The row-validation loop: accumulate `studentsToImport` and `errors`
over the data rows, in order.  A column-count mismatch or a missing
required field pushes an error and skips the row (`continue`). -/
def processRows (headers : List String) : List String → List Student × List String
  | [] => ([], [])
  | line :: rest =>
      let values := parseValues line
      let r := processRows headers rest
      if values.length ≠ headers.length then
        (r.1, "Incorrect number of columns" :: r.2)
      else
        let student := rowStudent headers values
        if student.name = "" ∨ student.admission_no = "" ∨
            student.class_code = "" then
          (r.1, "Missing required fields" :: r.2)
        else
          (student :: r.1, r.2)

/-- The data rows of the file: every non-blank line after the header. -/
def csvDataRows (text : String) : List String :=
  (csvLines text).tail

/-- The errors the row loop reports for the data rows of `text`, given
its headers. -/
def rowErrors (text : String) : List String :=
  match csvLines text with
  | [] => []
  | l0 :: rest => (processRows (parseHeaders l0) rest).2

/-- Embeds `Students.handleCsvImport`, up to the point where the bulk insert is
issued: `.error` is an early return before any insert, `.ok ss` means the
validated records `ss` are sent in a single `insert`. -/
def handleCsvImport (text : String) : Except String (List Student) :=
  match csvLines text with
  | l0 :: r1 :: rest =>
      let headers := parseHeaders l0
      if missingHeaders headers ≠ [] then
        .error "Missing required columns"
      else
        let result := processRows headers (r1 :: rest)
        if result.2 ≠ [] then
          .error "Import errors"
        else if result.1 = [] then
          .error "No valid students found in CSV"
        else
          .ok result.1
  | _ => .error "CSV file must contain at least a header and one data row"

/-- The database after the import ran: on a validation error nothing is
inserted; on success the validated records are bulk-inserted. -/
def run (db : DB) (text : String) : DB :=
  match handleCsvImport text with
  | .error _ => db
  | .ok ss => applyWrites db [.insertStudents ss]

end Students

/-! ## Balance check view: `BalanceCheck.handleSearch`
(src/components/LoginForm.tsx) -/

/-- Embeds `searchType: 'admission' | 'class'`. -/
inductive SearchType where
  | admission
  | byClass
  deriving Repr, DecidableEq

/-- The outcome of a balance search, as the user sees it. -/
inductive SearchOut where
  | blank
  | notFound
  | one (s : Student)
  | classList (ss : List Student)
  | emptyClass
  | err
  deriving Repr, DecidableEq

/-- The students a search outcome displays. -/
def SearchOut.shown : SearchOut → List Student
  | .one s => [s]
  | .classList ss => ss
  | _ => []

namespace BalanceCheck

/-- Embeds `BalanceCheck.handleSearch`: by admission number a
`.eq('admission_no', v.trim()).single()` read (`PGRST116`, i.e. not
exactly one row matching, is reported as not found when no row matches
and as a generic error otherwise); by class code a
`.eq('class_code', v.trim())` read.  The handler issues no write, so the
database is returned unchanged. -/
def handleSearch (db : DB) (ty : SearchType) (v : String) :
    SearchOut × DB :=
  if jsTrim v = "" then (.blank, db)
  else
    match ty with
    | .admission =>
        match db.students.filter (fun s => s.admission_no = jsTrim v) with
        | [] => (.notFound, db)
        | [s] => (.one s, db)
        | _ => (.err, db)
    | .byClass =>
        match db.students.filter (fun s => s.class_code = jsTrim v) with
        | [] => (.emptyClass, db)
        | ss => (.classList ss, db)

end BalanceCheck

/-! ## Deposit/spend operations on a student's cached monetary fields -/

/-- A deposit or spend transaction of a given amount. -/
inductive TxnOp where
  | deposit (amount : Rat)
  | spend (amount : Rat)
  deriving Repr, DecidableEq

/-- Modelled from the spec: the Transactions view (not under src/)
"records deposits/spends against a student, mutating the student's
cached balance fields" (`balance`, `total_paid`, `total_spent`, spec
sections 2-3, with `total_paid` the total deposited and `total_spent` the
total spent): a deposit adds the amount to `balance` and `total_paid`.
The spend update is the one the purchase handler in part_005 issues:
subtract the amount from `balance`, add it to `total_spent`. -/
def applyTxn (s : Student) : TxnOp → Student
  | .deposit a =>
      { s with balance := s.balance + a, total_paid := s.total_paid + a }
  | .spend a => Purchases.studentPurchaseUpdate s a

/-- The intended student invariant: `balance = total_paid - total_spent`. -/
def studentInv (s : Student) : Prop :=
  s.balance = s.total_paid - s.total_spent

/-! ## Sample data used to exercise the theorems on concrete inputs -/

/-- A concrete student row. -/
def sampleStudent : Student :=
  { id := "s1", name := "Ada", admission_no := "ASO-001"
  , class_code := "ND1A", balance := 100, total_paid := 150
  , total_spent := 50 }

/-- A concrete stock-item row. -/
def sampleItem : StockItem :=
  { id := "i1", item_name := "Pen", quantity := 10
  , cost_price := 5, selling_price := 8 }

/-- A concrete database with one student and one stock item. -/
def sampleDB : DB :=
  { students := [sampleStudent], stock_items := [sampleItem]
  , purchases := [], transactions := [], daily_sales := []
  , stock_purchases := [] }

/-- A concrete CSV file whose header holds the three required columns
plus an extra one, with a single valid data row. -/
def csvSupersetFile : String :=
  "name,admission_no,class_code,extra\nAda,A1,ND1A,x"

/-! ## Helper lemmas -/

/-- One deposit/spend operation preserves the student invariant. -/
theorem studentInv_applyTxn (s : Student) (op : TxnOp) (h : studentInv s) :
    studentInv (applyTxn s op) := by
  cases op with
  | deposit a =>
      simp only [studentInv, applyTxn] at h ⊢
      rw [h]; ring
  | spend a =>
      simp only [studentInv, applyTxn, Purchases.studentPurchaseUpdate] at h ⊢
      rw [h]; ring

/-- Looking an id up after an id-preserving patch of the matching rows
finds the patched row. -/
theorem findItem_map_patch (items : List StockItem) (id : String)
    (patch : StockItem → StockItem) (hpatch : ∀ it, (patch it).id = it.id) :
    findItem (items.map fun it => if it.id = id then patch it else it) id =
      (findItem items id).map patch := by
  induction items with
  | nil => rfl
  | cons a l ih =>
      by_cases h : a.id = id
      · have hpa : (patch a).id = id := by rw [hpatch]; exact h
        simp only [List.map_cons, if_pos h, findItem] at ih ⊢
        rw [List.find?_cons_of_pos _ (by simp [hpa]),
          List.find?_cons_of_pos _ (by simp [h])]
        rfl
      · simp only [List.map_cons, if_neg h, findItem] at ih ⊢
        rw [List.find?_cons_of_neg _ (by simp [h]),
          List.find?_cons_of_neg _ (by simp [h])]
        exact ih

/-- Looking an id up after the quantity/cost-price update patch of
`updateStockQtyCost` finds the patched row. -/
theorem findItem_update (items : List StockItem) (id : String) (q : Int)
    (c : Rat) :
    findItem
      (items.map fun x =>
        if x.id = id then { x with quantity := q, cost_price := c } else x)
      id =
      (findItem items id).map
        fun x => { x with quantity := q, cost_price := c } :=
  findItem_map_patch items id _ fun _ => rfl

/-- Looking an id up after the quantity update patch of `updateStockQty`
finds the patched row. -/
theorem findItem_updateQty (items : List StockItem) (id : String)
    (q : Int) :
    findItem
      (items.map fun x =>
        if x.id = id then { x with quantity := q } else x)
      id =
      (findItem items id).map fun x => { x with quantity := q } :=
  findItem_map_patch items id _ fun _ => rfl

/-- Unfolding one step of `applyWrites`. -/
theorem applyWrites_cons (db : DB) (w : Write) (ws : List Write) :
    applyWrites db (w :: ws) = applyWrites (applyWrite db w) ws := rfl

/-- No write ever removes a row from the `purchases` table. -/
theorem purchases_mono (db : DB) (w : Write) (p : PurchaseRow)
    (h : p ∈ db.purchases) : p ∈ (applyWrite db w).purchases := by
  cases w <;> simp [applyWrite, h]

/-- No sequence of writes ever removes a row from the `purchases`
table. -/
theorem purchases_mono_list (ws : List Write) (db : DB) (p : PurchaseRow)
    (h : p ∈ db.purchases) : p ∈ (applyWrites db ws).purchases := by
  induction ws generalizing db with
  | nil => exact h
  | cons w rest ih => exact ih _ (purchases_mono db w p h)

/-- If some data row fails the column-count check or the required-field
check, the row loop reports at least one error. -/
theorem processRows_errors_ne_nil (headers : List String)
    (rows : List String) (row : String) (hmem : row ∈ rows)
    (hbad : (Students.parseValues row).length ≠ headers.length ∨
      (Students.rowStudent headers (Students.parseValues row)).name = "" ∨
      (Students.rowStudent headers (Students.parseValues row)).admission_no = "" ∨
      (Students.rowStudent headers (Students.parseValues row)).class_code = "") :
    (Students.processRows headers rows).2 ≠ [] := by
  induction rows with
  | nil => cases hmem
  | cons line rest ih =>
      rcases List.mem_cons.mp hmem with rfl | hmem'
      · unfold Students.processRows
        dsimp only
        split_ifs with hlen hmiss
        · exact List.cons_ne_nil _ _
        · exact List.cons_ne_nil _ _
        · exact absurd (hbad.resolve_left hlen) hmiss
      · unfold Students.processRows
        dsimp only
        split_ifs
        · exact List.cons_ne_nil _ _
        · exact List.cons_ne_nil _ _
        · exact ih hmem'

/-- When the keys of a list are pairwise distinct, filtering for one key
yields at most one element. -/
theorem length_filter_key_le_one {α β : Type} [DecidableEq β]
    (key : α → β) (v : β) (l : List α)
    (h : (l.map key).Nodup) :
    (l.filter fun a => key a = v).length ≤ 1 := by
  induction l with
  | nil => simp
  | cons a t ih =>
      rw [List.map_cons, List.nodup_cons] at h
      by_cases hk : key a = v
      · rw [List.filter_cons_of_pos (by simpa using hk)]
        have ht : t.filter (fun a => key a = v) = [] := by
          rw [List.filter_eq_nil_iff]
          intro b hb
          simp only [decide_eq_true_eq]
          intro hbv
          exact h.1 (List.mem_map.mpr ⟨b, hb, by rw [hbv, hk]⟩)
        rw [ht]
        simp
      · rw [List.filter_cons_of_neg (by simpa using hk)]
        exact ih h.2

/-- The lemma `length_filter_key_le_one` specialised to the admission-number key. -/
theorem length_filter_admission_le_one (l : List Student) (v : String)
    (h : (l.map fun s => s.admission_no).Nodup) :
    (l.filter fun s => s.admission_no = v).length ≤ 1 :=
  length_filter_key_le_one (fun s => s.admission_no) v l h

/-! ## Claim theorems -/

/-- C1: a student purchase whose requested quantity exceeds the item's
stock, or whose total price `selling_price * quantity` exceeds the
student's balance, is rejected by `Purchases.handleSubmit` and no write
occurs: the database is unchanged. -/
theorem purchase_rejected_no_writes (db : DB) (fd : PurchaseForm)
    (it : StockItem) (st : Student)
    (hit : findItem db.stock_items fd.item_id = some it)
    (hst : findStudent db.students fd.student_id = some st)
    (hrej : it.quantity < fd.quantity ∨
      st.balance < it.selling_price * (fd.quantity : Rat)) :
    (∃ e, Purchases.handleSubmit db fd = .error e) ∧
      Purchases.run db fd = db := by
  have herr : ∃ e, Purchases.handleSubmit db fd = .error e := by
    unfold Purchases.handleSubmit
    rw [hit, hst]
    dsimp only
    split_ifs with h1 h2 h3 h4
    · exact ⟨_, rfl⟩
    · exact ⟨_, rfl⟩
    · exact ⟨_, rfl⟩
    · exact ⟨_, rfl⟩
    · rcases hrej with hq | hb
      · exact absurd hq h3
      · exact absurd hb h4
  obtain ⟨e, he⟩ := herr
  exact ⟨⟨e, he⟩, by simp [Purchases.run, he]⟩

/-- Witness for C1: with 10 in stock, a request for 20 is rejected and
the database is unchanged. -/
theorem purchase_rejected_no_writes_witness :
    (∃ e, Purchases.handleSubmit sampleDB ⟨"s1", "i1", 20⟩ = .error e) ∧
      Purchases.run sampleDB ⟨"s1", "i1", 20⟩ = sampleDB :=
  purchase_rejected_no_writes sampleDB ⟨"s1", "i1", 20⟩ sampleItem
    sampleStudent (by decide) (by decide) (by decide)

/-- C2: a student satisfying `balance = total_paid - total_spent` still
satisfies it after any sequence of deposit/spend operations, and in
particular after the record-purchase student update, which subtracts the
total price from `balance` and adds it to `total_spent`. -/
theorem balance_invariant_preserved (s : Student) (ops : List TxnOp)
    (tp : Rat) (h : studentInv s) :
    studentInv (ops.foldl applyTxn s) ∧
      studentInv (Purchases.studentPurchaseUpdate s tp) := by
  refine ⟨?_, studentInv_applyTxn s (.spend tp) h⟩
  induction ops generalizing s with
  | nil => exact h
  | cons op rest ih => exact ih _ (studentInv_applyTxn s op h)

/-- Witness for C2: the invariant survives a deposit of 20 followed by a
spend of 30, and the purchase update of 7. -/
theorem balance_invariant_preserved_witness :
    studentInv ([TxnOp.deposit 20, TxnOp.spend 30].foldl applyTxn
      sampleStudent) ∧
      studentInv (Purchases.studentPurchaseUpdate sampleStudent 7) :=
  balance_invariant_preserved sampleStudent [TxnOp.deposit 20, TxnOp.spend 30]
    7 (by simp [studentInv, sampleStudent]; norm_num)

/-- C3: recording a stock purchase of `q` units at cost `c` for an item
with prior quantity `Q` and cost `C` sets the item's quantity to `Q + q`
and its cost price to the weighted average `(Q*C + q*c) / (Q + q)`. -/
theorem stock_purchase_weighted_average (db : DB) (fd : StockPurchaseForm)
    (it : StockItem)
    (hit : findItem db.stock_items fd.item_id = some it)
    (hid : fd.item_id ≠ "") (hsup : fd.supplier_name ≠ "")
    (hq : 0 < fd.quantity) (hc : 0 < fd.cost_per_unit)
    (hQ : 0 ≤ it.quantity) (hC : 0 ≤ it.cost_price) :
    findItem (StockPurchases.run db fd).stock_items fd.item_id =
      some { it with
        quantity := it.quantity + fd.quantity
      , cost_price :=
          ((it.quantity : Rat) * it.cost_price +
            (fd.quantity : Rat) * fd.cost_per_unit) /
            ((it.quantity : Rat) + (fd.quantity : Rat)) } := by
  have h1 : ¬(fd.item_id = "" ∨ fd.supplier_name = "") :=
    not_or.mpr ⟨hid, hsup⟩
  have h2 : ¬(fd.quantity ≤ 0) := not_le.mpr hq
  have h3 : ¬(fd.cost_per_unit ≤ 0) := not_le.mpr hc
  unfold StockPurchases.run StockPurchases.handleSubmit
  rw [if_neg h1, if_neg h2, if_neg h3, hit]
  refine Eq.trans (findItem_update db.stock_items fd.item_id _ _) ?_
  rw [hit]
  simp only [Option.map_some', Int.cast_add]

/-- C9: when the submitted item id is absent from the fetched stock-items
list, the stock-purchase handler still succeeds, inserts the
`stock_purchases` row, and leaves the `stock_items` table entirely
unchanged. -/
theorem stock_purchase_missing_item (db : DB) (fd : StockPurchaseForm)
    (hnone : findItem db.stock_items fd.item_id = none)
    (hid : fd.item_id ≠ "") (hsup : fd.supplier_name ≠ "")
    (hq : 0 < fd.quantity) (hc : 0 < fd.cost_per_unit) :
    ∃ row : StockPurchaseRow,
      StockPurchases.handleSubmit db fd = .ok [.insertStockPurchase row] ∧
      (StockPurchases.run db fd).stock_purchases =
        db.stock_purchases ++ [row] ∧
      (StockPurchases.run db fd).stock_items = db.stock_items ∧
      (StockPurchases.run db fd).students = db.students := by
  have h1 : ¬(fd.item_id = "" ∨ fd.supplier_name = "") :=
    not_or.mpr ⟨hid, hsup⟩
  have h2 : ¬(fd.quantity ≤ 0) := not_le.mpr hq
  have h3 : ¬(fd.cost_per_unit ≤ 0) := not_le.mpr hc
  have hok : StockPurchases.handleSubmit db fd = .ok
      [.insertStockPurchase
        { item_id := fd.item_id, quantity := fd.quantity
        , cost_per_unit := fd.cost_per_unit
        , total_cost := (fd.quantity : Rat) * fd.cost_per_unit
        , supplier_name := fd.supplier_name
        , purchase_date := fd.purchase_date, notes := fd.notes }] := by
    unfold StockPurchases.handleSubmit
    rw [if_neg h1, if_neg h2, if_neg h3, hnone]
  have hrun : StockPurchases.run db fd = applyWrite db
      (.insertStockPurchase
        { item_id := fd.item_id, quantity := fd.quantity
        , cost_per_unit := fd.cost_per_unit
        , total_cost := (fd.quantity : Rat) * fd.cost_per_unit
        , supplier_name := fd.supplier_name
        , purchase_date := fd.purchase_date, notes := fd.notes }) := by
    unfold StockPurchases.run
    rw [hok]
    rfl
  exact ⟨_, hok, by rw [hrun]; rfl, by rw [hrun]; rfl, by rw [hrun]; rfl⟩

/-- Witness for C3: buying 10 more units at 7 for an item holding 10
units at cost 5 yields quantity 20 and weighted-average cost
`(10*5 + 10*7) / 20 = 6`. -/
theorem stock_purchase_weighted_average_witness :
    findItem (StockPurchases.run sampleDB
        ⟨"i1", (10 : Int), (7 : Rat), "Acme", "2025-10-01", none⟩).stock_items
        "i1" =
      some { sampleItem with
        quantity := sampleItem.quantity + (10 : Int)
      , cost_price :=
          ((sampleItem.quantity : Rat) * sampleItem.cost_price +
            ((10 : Int) : Rat) * (7 : Rat)) /
            ((sampleItem.quantity : Rat) + ((10 : Int) : Rat)) } :=
  stock_purchase_weighted_average sampleDB
    ⟨"i1", (10 : Int), (7 : Rat), "Acme", "2025-10-01", none⟩ sampleItem
    (by decide) (by decide) (by decide) (by decide) (by decide)
    (by decide) (by decide)

/-- Witness for C9: a stock purchase against the unknown item id `i9`
succeeds, appends its row, and leaves the stock items unchanged. -/
theorem stock_purchase_missing_item_witness :
    ∃ row : StockPurchaseRow,
      StockPurchases.handleSubmit sampleDB
          ⟨"i9", (5 : Int), (3 : Rat), "Acme", "2025-10-01", none⟩ =
        .ok [.insertStockPurchase row] ∧
      (StockPurchases.run sampleDB
          ⟨"i9", (5 : Int), (3 : Rat), "Acme", "2025-10-01", none⟩).stock_purchases =
        sampleDB.stock_purchases ++ [row] ∧
      (StockPurchases.run sampleDB
          ⟨"i9", (5 : Int), (3 : Rat), "Acme", "2025-10-01", none⟩).stock_items =
        sampleDB.stock_items ∧
      (StockPurchases.run sampleDB
          ⟨"i9", (5 : Int), (3 : Rat), "Acme", "2025-10-01", none⟩).students =
        sampleDB.students :=
  stock_purchase_missing_item sampleDB
    ⟨"i9", (5 : Int), (3 : Rat), "Acme", "2025-10-01", none⟩
    (by decide) (by decide) (by decide) (by decide) (by decide)

/-- C4: for a daily sale of an item in the fetched list, a request
exceeding the stock is rejected with no writes; on success the handler
inserts exactly the sale row — whose stored profit is
`(selling_price - cost_price) * quantity_sold` at the item's prices —
and the stock decrement. -/
theorem daily_sale_profit_and_guard (db : DB) (fd : DailySaleForm)
    (it : StockItem)
    (hit : findItem db.stock_items fd.item_id = some it) :
    (it.quantity < fd.quantity_sold →
      (∃ e, DailySales.handleSubmit db fd = .error e) ∧
        DailySales.run db fd = db) ∧
    (∀ ws, DailySales.handleSubmit db fd = .ok ws →
      ws = [.insertDailySale (DailySales.mkSale fd it),
            .updateStockQty fd.item_id (it.quantity - fd.quantity_sold)] ∧
      (DailySales.mkSale fd it).profit =
        (it.selling_price - it.cost_price) * (fd.quantity_sold : Rat) ∧
      (DailySales.run db fd).daily_sales =
        db.daily_sales ++ [DailySales.mkSale fd it]) := by
  constructor
  · intro hlt
    have herr : ∃ e, DailySales.handleSubmit db fd = .error e := by
      unfold DailySales.handleSubmit
      rw [hit]
      dsimp only
      split_ifs with h1 h2
      · exact ⟨_, rfl⟩
      · exact ⟨_, rfl⟩
      · exact ⟨_, rfl⟩
    obtain ⟨e, he⟩ := herr
    exact ⟨⟨e, he⟩, by simp [DailySales.run, he]⟩
  · intro ws hws
    unfold DailySales.handleSubmit at hws
    rw [hit] at hws
    dsimp only at hws
    by_cases h1 : fd.item_id = ""
    · rw [if_pos h1] at hws; simp at hws
    rw [if_neg h1] at hws
    by_cases h2 : fd.quantity_sold ≤ 0
    · rw [if_pos h2] at hws; simp at hws
    rw [if_neg h2] at hws
    by_cases h3 : it.quantity < fd.quantity_sold
    · rw [if_pos h3] at hws; simp at hws
    rw [if_neg h3] at hws
    injection hws with hws
    subst hws
    have hok : DailySales.handleSubmit db fd =
        .ok [.insertDailySale (DailySales.mkSale fd it),
             .updateStockQty fd.item_id (it.quantity - fd.quantity_sold)] := by
      unfold DailySales.handleSubmit
      rw [hit]
      dsimp only
      rw [if_neg h1, if_neg h2, if_neg h3]
    refine ⟨rfl, ?_, ?_⟩
    · simp only [DailySales.mkSale]
      ring
    · unfold DailySales.run
      rw [hok]
      rfl

/-- Witness for C4: selling 2 of the 10 sample units, the guard
implication is vacuous and the success branch stores profit
`(8 - 5) * 2`. -/
theorem daily_sale_profit_and_guard_witness :
    (sampleItem.quantity < (2 : Int) →
      (∃ e, DailySales.handleSubmit sampleDB ⟨"i1", 2, "2025-10-01", none⟩ =
        .error e) ∧
        DailySales.run sampleDB ⟨"i1", 2, "2025-10-01", none⟩ = sampleDB) ∧
    (∀ ws, DailySales.handleSubmit sampleDB ⟨"i1", 2, "2025-10-01", none⟩ =
        .ok ws →
      ws = [.insertDailySale
              (DailySales.mkSale ⟨"i1", 2, "2025-10-01", none⟩ sampleItem),
            .updateStockQty "i1" (sampleItem.quantity - 2)] ∧
      (DailySales.mkSale ⟨"i1", 2, "2025-10-01", none⟩ sampleItem).profit =
        (sampleItem.selling_price - sampleItem.cost_price) * ((2 : Int) : Rat) ∧
      (DailySales.run sampleDB ⟨"i1", 2, "2025-10-01", none⟩).daily_sales =
        sampleDB.daily_sales ++
          [DailySales.mkSale ⟨"i1", 2, "2025-10-01", none⟩ sampleItem]) :=
  daily_sale_profit_and_guard sampleDB ⟨"i1", 2, "2025-10-01", none⟩
    sampleItem (by decide)

/-- C8: a student purchase that passes validation issues the purchase-row
insert first; a failure right after it leaves the purchase row written
and every other table untouched, and no later write of the sequence ever
removes the row — there is no compensating rollback. -/
theorem purchase_not_atomic (db : DB) (fd : PurchaseForm)
    (it : StockItem) (st : Student)
    (hit : findItem db.stock_items fd.item_id = some it)
    (hst : findStudent db.students fd.student_id = some st)
    (hsid : fd.student_id ≠ "") (hiid : fd.item_id ≠ "")
    (hq : 0 < fd.quantity)
    (hstock : fd.quantity ≤ it.quantity)
    (hbal : it.selling_price * (fd.quantity : Rat) ≤ st.balance) :
    ∃ (row : PurchaseRow) (ws : List Write),
      Purchases.handleSubmit db fd = .ok (.insertPurchase row :: ws) ∧
      ws ≠ [] ∧
      applyWrites db [.insertPurchase row] =
        { db with purchases := db.purchases ++ [row] } ∧
      ∀ k, row ∈
        (applyWrites db ((Write.insertPurchase row :: ws).take (k + 1))).purchases := by
  refine ⟨{ student_id := fd.student_id, item_id := fd.item_id
          , quantity := fd.quantity
          , total_price := it.selling_price * (fd.quantity : Rat) },
    [ .updateStockQty fd.item_id (it.quantity - fd.quantity)
    , .updateStudentMoney fd.student_id
        (st.balance - it.selling_price * (fd.quantity : Rat))
        (st.total_spent + it.selling_price * (fd.quantity : Rat))
    , .insertTransaction
        { student_id := fd.student_id
        , amount := it.selling_price * (fd.quantity : Rat)
        , type := .spend
        , method := .credit
        , note := some ("Purchase: " ++ it.item_name ++ " (" ++
            toString fd.quantity ++ " items)") } ], ?_, ?_, rfl, ?_⟩
  · unfold Purchases.handleSubmit
    rw [if_neg (not_or.mpr ⟨hsid, hiid⟩), if_neg (not_le.mpr hq), hit, hst]
    dsimp only
    rw [if_neg (not_lt.mpr hstock), if_neg (not_lt.mpr hbal)]
  · exact List.cons_ne_nil _ _
  · intro k
    rw [List.take_succ_cons, applyWrites_cons]
    exact purchases_mono_list _ _ _
      (List.mem_append_right _ (List.mem_singleton_self _))

/-- C5: CSV import rejects a file whose header misses one of the
required columns, rejects a file in which some data row's comma-count
differs from the header's, and an import rejection inserts nothing. -/
theorem csv_import_rejects (text : String) :
    ((∃ r ∈ Students.requiredHeaders, r ∉ Students.csvHeaders text) →
      ∃ e, Students.handleCsvImport text = .error e) ∧
    (∀ row ∈ Students.csvDataRows text,
      (Students.parseValues row).length ≠ (Students.csvHeaders text).length →
      ∃ e, Students.handleCsvImport text = .error e) ∧
    (∀ db e, Students.handleCsvImport text = .error e →
      Students.run db text = db) := by
  refine ⟨?_, ?_, ?_⟩
  · rintro ⟨r, hr, hnot⟩
    rcases hl : Students.csvLines text with _ | ⟨l0, _ | ⟨r1, rest⟩⟩
    · unfold Students.handleCsvImport
      rw [hl]
      exact ⟨_, rfl⟩
    · unfold Students.handleCsvImport
      rw [hl]
      exact ⟨_, rfl⟩
    · have hhd : Students.csvHeaders text = Students.parseHeaders l0 := by
        rw [Students.csvHeaders, hl]
      have hne : Students.missingHeaders (Students.parseHeaders l0) ≠ [] := by
        apply List.ne_nil_of_mem (a := r)
        rw [Students.missingHeaders, List.mem_filter]
        rw [hhd] at hnot
        exact ⟨hr, by simpa using hnot⟩
      unfold Students.handleCsvImport
      rw [hl]
      dsimp only
      rw [if_pos hne]
      exact ⟨_, rfl⟩
  · intro row hrow hlen
    rcases hl : Students.csvLines text with _ | ⟨l0, _ | ⟨r1, rest⟩⟩
    · unfold Students.handleCsvImport
      rw [hl]
      exact ⟨_, rfl⟩
    · unfold Students.handleCsvImport
      rw [hl]
      exact ⟨_, rfl⟩
    · have hhd : Students.csvHeaders text = Students.parseHeaders l0 := by
        rw [Students.csvHeaders, hl]
      have hrow' : row ∈ r1 :: rest := by
        have := hrow
        rw [Students.csvDataRows, hl] at this
        exact this
      unfold Students.handleCsvImport
      rw [hl]
      dsimp only
      by_cases hmiss : Students.missingHeaders (Students.parseHeaders l0) ≠ []
      · rw [if_pos hmiss]
        exact ⟨_, rfl⟩
      · rw [if_neg hmiss]
        have herr : (Students.processRows (Students.parseHeaders l0)
            (r1 :: rest)).2 ≠ [] :=
          processRows_errors_ne_nil _ _ row hrow'
            (Or.inl (by rw [← hhd]; exact hlen))
        rw [if_pos herr]
        exact ⟨_, rfl⟩
  · intro db e he
    unfold Students.run
    rw [he]

/-- Witness for C5: a file whose header lacks `class_code` is rejected,
and the rejection leaves the sample database unchanged. -/
theorem csv_import_rejects_witness :
    (∃ e, Students.handleCsvImport "name,admission_no\nAda,A1" =
      .error e) ∧
    Students.run sampleDB "name,admission_no\nAda,A1" = sampleDB := by
  have h := (csv_import_rejects "name,admission_no\nAda,A1").1
    ⟨"class_code", by decide, by decide⟩
  obtain ⟨e, he⟩ := h
  exact ⟨⟨e, he⟩,
    (csv_import_rejects "name,admission_no\nAda,A1").2.2 sampleDB e he⟩

/-- C10: if any data row is invalid (wrong column count or a missing
required field), the whole import aborts with an error and zero rows are
inserted, the individually valid rows included. -/
theorem csv_import_all_or_nothing (text : String) (row : String)
    (hrow : row ∈ Students.csvDataRows text)
    (hbad : (Students.parseValues row).length ≠
        (Students.csvHeaders text).length ∨
      (Students.rowStudent (Students.csvHeaders text)
        (Students.parseValues row)).name = "" ∨
      (Students.rowStudent (Students.csvHeaders text)
        (Students.parseValues row)).admission_no = "" ∨
      (Students.rowStudent (Students.csvHeaders text)
        (Students.parseValues row)).class_code = "") :
    (∃ e, Students.handleCsvImport text = .error e) ∧
      ∀ db, Students.run db text = db := by
  have herr : ∃ e, Students.handleCsvImport text = .error e := by
    rcases hl : Students.csvLines text with _ | ⟨l0, _ | ⟨r1, rest⟩⟩
    · unfold Students.handleCsvImport
      rw [hl]
      exact ⟨_, rfl⟩
    · unfold Students.handleCsvImport
      rw [hl]
      exact ⟨_, rfl⟩
    · have hhd : Students.csvHeaders text = Students.parseHeaders l0 := by
        rw [Students.csvHeaders, hl]
      have hrow' : row ∈ r1 :: rest := by
        have := hrow
        rw [Students.csvDataRows, hl] at this
        exact this
      unfold Students.handleCsvImport
      rw [hl]
      dsimp only
      by_cases hmiss : Students.missingHeaders (Students.parseHeaders l0) ≠ []
      · rw [if_pos hmiss]
        exact ⟨_, rfl⟩
      · rw [if_neg hmiss]
        have herr2 : (Students.processRows (Students.parseHeaders l0)
            (r1 :: rest)).2 ≠ [] :=
          processRows_errors_ne_nil _ _ row hrow' (by rw [← hhd]; exact hbad)
        rw [if_pos herr2]
        exact ⟨_, rfl⟩
  obtain ⟨e, he⟩ := herr
  exact ⟨⟨e, he⟩, fun db => by unfold Students.run; rw [he]⟩

/-- Witness for C10: a file with one valid row and one two-column row is
rejected entirely; nothing is inserted into the sample database. -/
theorem csv_import_all_or_nothing_witness :
    (∃ e, Students.handleCsvImport
      "name,admission_no,class_code\nAda,A1,ND1A\nBad,Row" = .error e) ∧
    ∀ db, Students.run db
      "name,admission_no,class_code\nAda,A1,ND1A\nBad,Row" = db :=
  csv_import_all_or_nothing
    "name,admission_no,class_code\nAda,A1,ND1A\nBad,Row" "Bad,Row"
    (by decide) (by decide)

/-- C6 counterexample: a header containing the extra column `extra` is
not rejected — the import succeeds and inserts a student row. -/
theorem csv_extra_header_not_rejected :
    "extra" ∈ Students.csvHeaders csvSupersetFile ∧
    "extra" ∉ Students.requiredHeaders ∧
    (Students.handleCsvImport csvSupersetFile).isOk = true ∧
    (Students.run sampleDB csvSupersetFile).students ≠
      sampleDB.students := by
  refine ⟨by decide, by decide, ?_, by decide⟩
  decide

/-- C6 amended: the header check requires the header to contain every
required column — it passes exactly when none is missing — and a header
missing a required column makes the import fail before any insert. -/
theorem csv_header_check_is_containment (text : String) :
    (Students.missingHeaders (Students.csvHeaders text) = [] ↔
      ∀ r ∈ Students.requiredHeaders, r ∈ Students.csvHeaders text) ∧
    (Students.missingHeaders (Students.csvHeaders text) ≠ [] →
      (∃ e, Students.handleCsvImport text = .error e) ∧
      ∀ db, Students.run db text = db) := by
  constructor
  · rw [Students.missingHeaders, List.filter_eq_nil_iff]
    constructor
    · intro h r hr
      have := h r hr
      simpa using this
    · intro h r hr
      simpa using h r hr
  · intro hne
    have herr : ∃ e, Students.handleCsvImport text = .error e := by
      rcases hl : Students.csvLines text with _ | ⟨l0, _ | ⟨r1, rest⟩⟩
      · unfold Students.handleCsvImport
        rw [hl]
        exact ⟨_, rfl⟩
      · unfold Students.handleCsvImport
        rw [hl]
        exact ⟨_, rfl⟩
      · have hhd : Students.csvHeaders text = Students.parseHeaders l0 := by
          rw [Students.csvHeaders, hl]
        rw [hhd] at hne
        unfold Students.handleCsvImport
        rw [hl]
        dsimp only
        rw [if_pos hne]
        exact ⟨_, rfl⟩
    obtain ⟨e, he⟩ := herr
    exact ⟨⟨e, he⟩, fun db => by unfold Students.run; rw [he]⟩

/-- Witness for C6: on a file missing `class_code`, the header check
fails and the import rejects with no insert. -/
theorem csv_header_check_is_containment_witness :
    (Students.missingHeaders
        (Students.csvHeaders "name,admission_no\nAda,A1") ≠ []) ∧
    (∃ e, Students.handleCsvImport "name,admission_no\nAda,A1" =
      .error e) ∧
    ∀ db, Students.run db "name,admission_no\nAda,A1" = db :=
  ⟨by decide,
    (csv_header_check_is_containment "name,admission_no\nAda,A1").2
      (by decide)⟩

/-- C7: with unique admission numbers, the admission-number search yields
the single matching student exactly when one exists and "not found"
otherwise; the class-code search displays exactly the students of that
class (possibly none); and neither search writes to the database. -/
theorem balance_check_lookup (db : DB) (v : String)
    (hv : jsTrim v ≠ "")
    (hnodup : (db.students.map fun s => s.admission_no).Nodup) :
    (∀ s, (BalanceCheck.handleSearch db .admission v).1 = .one s →
      s ∈ db.students ∧ s.admission_no = jsTrim v) ∧
    ((∃ s ∈ db.students, s.admission_no = jsTrim v) →
      ∃ s, (BalanceCheck.handleSearch db .admission v).1 = .one s) ∧
    ((BalanceCheck.handleSearch db .admission v).1 = .notFound ↔
      ∀ s ∈ db.students, s.admission_no ≠ jsTrim v) ∧
    (∀ s, s ∈ ((BalanceCheck.handleSearch db .byClass v).1).shown ↔
      s ∈ db.students ∧ s.class_code = jsTrim v) ∧
    (∀ ty, (BalanceCheck.handleSearch db ty v).2 = db) := by
  have hclass : ∀ s,
      s ∈ ((BalanceCheck.handleSearch db .byClass v).1).shown ↔
      s ∈ db.students ∧ s.class_code = jsTrim v := by
    intro s
    unfold BalanceCheck.handleSearch
    rw [if_neg hv]
    dsimp only
    cases hC : db.students.filter (fun x => x.class_code = jsTrim v) with
    | nil =>
        dsimp only [SearchOut.shown]
        constructor
        · intro hm
          exact absurd hm (List.not_mem_nil s)
        · rintro ⟨hmem, hcc⟩
          have hsf : s ∈ db.students.filter
              (fun x => x.class_code = jsTrim v) :=
            List.mem_filter.mpr ⟨hmem, by simpa using hcc⟩
          rw [hC] at hsf
          exact absurd hsf (List.not_mem_nil s)
    | cons a t =>
        dsimp only [SearchOut.shown]
        rw [← hC, List.mem_filter]
        simp
  have hsnd : ∀ ty, (BalanceCheck.handleSearch db ty v).2 = db := by
    intro ty
    unfold BalanceCheck.handleSearch
    rw [if_neg hv]
    cases ty
    · dsimp only
      cases db.students.filter (fun s => s.admission_no = jsTrim v) with
      | nil => rfl
      | cons a t =>
          cases t with
          | nil => rfl
          | cons b t2 => rfl
    · dsimp only
      cases db.students.filter (fun s => s.class_code = jsTrim v) with
      | nil => rfl
      | cons a t => rfl
  rcases hF : db.students.filter (fun s => s.admission_no = jsTrim v)
    with _ | ⟨a, _ | ⟨b, t⟩⟩
  · have hout : (BalanceCheck.handleSearch db .admission v).1 =
        .notFound := by
      unfold BalanceCheck.handleSearch
      rw [if_neg hv]
      dsimp only
      rw [hF]
    refine ⟨?_, ?_, ?_, hclass, hsnd⟩
    · intro s hs
      rw [hout] at hs
      cases hs
    · rintro ⟨s, hmem, hadm⟩
      have hsf : s ∈ db.students.filter
          (fun x => x.admission_no = jsTrim v) :=
        List.mem_filter.mpr ⟨hmem, by simpa using hadm⟩
      rw [hF] at hsf
      exact absurd hsf (List.not_mem_nil s)
    · rw [hout]
      constructor
      · intro _ s hmem hadm
        have hsf : s ∈ db.students.filter
            (fun x => x.admission_no = jsTrim v) :=
          List.mem_filter.mpr ⟨hmem, by simpa using hadm⟩
        rw [hF] at hsf
        exact absurd hsf (List.not_mem_nil s)
      · intro _
        rfl
  · have hout : (BalanceCheck.handleSearch db .admission v).1 =
        .one a := by
      unfold BalanceCheck.handleSearch
      rw [if_neg hv]
      dsimp only
      rw [hF]
    have hamem : a ∈ db.students ∧ a.admission_no = jsTrim v := by
      have hsf : a ∈ db.students.filter
          (fun x => x.admission_no = jsTrim v) := by
        rw [hF]
        exact List.mem_singleton_self a
      have := List.mem_filter.mp hsf
      exact ⟨this.1, by simpa using this.2⟩
    refine ⟨?_, ?_, ?_, hclass, hsnd⟩
    · intro s hs
      rw [hout] at hs
      injection hs with h
      exact h ▸ hamem
    · intro _
      exact ⟨a, hout⟩
    · rw [hout]
      constructor
      · intro h
        cases h
      · intro hall
        exact absurd hamem.2 (hall a hamem.1)
  · exfalso
    have hlen := length_filter_admission_le_one db.students (jsTrim v) hnodup
    rw [hF] at hlen
    simp at hlen

/-- Witness for C7: searching the sample database for admission number
`ASO-001` and class `ND1A` behaves as specified, with no write. -/
theorem balance_check_lookup_witness :
    (∀ s, (BalanceCheck.handleSearch sampleDB .admission "ASO-001").1 =
        .one s →
      s ∈ sampleDB.students ∧ s.admission_no = jsTrim "ASO-001") ∧
    ((∃ s ∈ sampleDB.students, s.admission_no = jsTrim "ASO-001") →
      ∃ s, (BalanceCheck.handleSearch sampleDB .admission "ASO-001").1 =
        .one s) ∧
    ((BalanceCheck.handleSearch sampleDB .admission "ASO-001").1 =
        .notFound ↔
      ∀ s ∈ sampleDB.students, s.admission_no ≠ jsTrim "ASO-001") ∧
    (∀ s, s ∈ ((BalanceCheck.handleSearch sampleDB .byClass
        "ASO-001").1).shown ↔
      s ∈ sampleDB.students ∧ s.class_code = jsTrim "ASO-001") ∧
    (∀ ty, (BalanceCheck.handleSearch sampleDB ty "ASO-001").2 =
      sampleDB) :=
  balance_check_lookup sampleDB "ASO-001" (by decide) (by decide)

/-- Witness for C8: buying 2 sample units, the purchase row persists
after any failure point and the state after the first write is the
partial one. -/
theorem purchase_not_atomic_witness :
    ∃ (row : PurchaseRow) (ws : List Write),
      Purchases.handleSubmit sampleDB ⟨"s1", "i1", 2⟩ =
        .ok (.insertPurchase row :: ws) ∧
      ws ≠ [] ∧
      applyWrites sampleDB [.insertPurchase row] =
        { sampleDB with purchases := sampleDB.purchases ++ [row] } ∧
      ∀ k, row ∈
        (applyWrites sampleDB
          ((Write.insertPurchase row :: ws).take (k + 1))).purchases :=
  purchase_not_atomic sampleDB ⟨"s1", "i1", 2⟩ sampleItem sampleStudent
    (by decide) (by decide) (by decide) (by decide) (by decide)
    (by decide) (by norm_num [sampleItem, sampleStudent])

end Asostore
